import Mathlib

/-!
Verification development for the mce keypad module (src/modules/keypad.c).

The module is shallowly embedded: every trigger/backend function of the C
file becomes a pure Lean function from an explicit state (the file-static
variables of keypad.c) and a read-only datapipe environment to a new state
together with a trace of the externally visible actions it performs
(hardware sysfs writes, level-channel pushes, timer operations).

glib/C integer conventions: `guint` is modelled as `Nat` reduced mod 2^32
where overflow can occur, `gint` as `Int` with the usual guint<->gint
two's-complement reinterpretation made explicit (`gintOf`, `guintOf`).
-/

namespace Keypad

/-- Device models distinguished by get_product_id() in keypad.c. -/
inductive ProductId where
  | rm690
  | rm680
  | rx51
  | rx48
  | rx44
  | other
deriving DecidableEq

/-- Cover (keyboard slide) state, cf. COVER_OPEN / COVER_CLOSED. -/
inductive CoverState where
  | cover_undef
  | cover_closed
  | cover_open
deriving DecidableEq

/-- Display state, cf. MCE_DISPLAY_* constants used by keypad.c. -/
inductive DisplayState where
  | undef
  | off
  | lpm_off
  | lpm_on
  | dim
  | on
deriving DecidableEq

/-- System state, cf. MCE_STATE_*; keypad.c only distinguishes USER. -/
inductive SystemState where
  | undef
  | shutdown
  | user
  | actdead
  | reboot
  | boot
deriving DecidableEq

/-- Alarm UI state, cf. MCE_ALARM_UI_*_INT32. -/
inductive AlarmUiState where
  | off
  | visible
  | ringing
  | undef
deriving DecidableEq

/-- The sysfs files keypad.c writes to (paths resolved by setup_key_backlight). -/
inductive HwPath where
  | engine3_mode
  | engine3_load
  | engine3_leds
  | led_brightness_kb (n : Nat)
  | led_current_kb (n : Nat)
  | n810_keypad_fadetime
  | n810_keyboard_fadetime
deriving DecidableEq

/-- Externally visible effects of the module, in program order.
`writeStr`/`writeNum` are hardware (sysfs) writes via mce-io;
`pushLevel` is execute_datapipe on key_backlight_pipe;
`timerStart`/`timerCancel` are g_timeout_add_seconds / g_source_remove. -/
inductive Action where
  | writeStr (path : HwPath) (value : String)
  | writeNum (path : HwPath) (value : Int)
  | pushLevel (level : Int)
  | timerStart (seconds : Int)
  | timerCancel (id : Nat)
deriving DecidableEq

/-- Reinterpret a gint value as guint (C unsigned conversion, mod 2^32). -/
def guintOf (i : Int) : Nat := (i % 4294967296).toNat

/-- Reinterpret a guint value as gint (two's complement, mod 2^32). -/
def gintOf (n : Nat) : Int :=
  let m := n % 4294967296
  if m < 2147483648 then (m : Int) else (m : Int) - 4294967296

/-- Modelled from the spec: documented numeric default for the backlight
idle timeout (DEFAULT_KEY_BACKLIGHT_TIMEOUT, defined in a header that is
not present under src/; the exact number is irrelevant to the claims). -/
def DEFAULT_KEY_BACKLIGHT_TIMEOUT : Int := 30

/-- Modelled from the spec: documented numeric default for the fade-in
time (DEFAULT_KEY_BACKLIGHT_FADE_IN_TIME, header not under src/). -/
def DEFAULT_KEY_BACKLIGHT_FADE_IN_TIME : Int := 250

/-- Modelled from the spec: documented numeric default for the fade-out
time (DEFAULT_KEY_BACKLIGHT_FADE_OUT_TIME, header not under src/). -/
def DEFAULT_KEY_BACKLIGHT_FADE_OUT_TIME : Int := 1000

/-- Modelled from the spec: the default "on" level pushed by the
unconditional enable (DEFAULT_KEY_BACKLIGHT_LEVEL, header not under src/). -/
def DEFAULT_KEY_BACKLIGHT_LEVEL : Int := 127

/-- Modelled from the spec: the keylock bit of the lock submode bitmask
(MCE_TKLOCK_SUBMODE, defined in mce.h which is not under src/). -/
def MCE_TKLOCK_SUBMODE : Nat := 2

/-- Modelled from the spec: maximum LED drive current written to each
channel (MAXIMUM_LYSTI_BACKLIGHT_LED_CURRENT, header not under src/). -/
def MAXIMUM_LYSTI_BACKLIGHT_LED_CURRENT : Int := 50

/-- Modelled from the spec: engine mode string for "disabled". -/
def MCE_LED_DISABLED_MODE : String := "disabled"

/-- Modelled from the spec: engine mode string for "load". -/
def MCE_LED_LOAD_MODE : String := "load"

/-- Modelled from the spec: engine mode string for "run". -/
def MCE_LED_RUN_MODE : String := "run"

/-- Modelled from the spec: per-model channel bitmask
(MCE_LYSTI_KB_BACKLIGHT_MASK_RM680, header not under src/). -/
def MCE_LYSTI_KB_BACKLIGHT_MASK_RM680 : Nat := 63

/-- Modelled from the spec: per-model channel bitmask
(MCE_LYSTI_KB_BACKLIGHT_MASK_RX51, header not under src/). -/
def MCE_LYSTI_KB_BACKLIGHT_MASK_RX51 : Nat := 411

/-- Modelled from the spec: mce-lib's bin_to_string renders the channel
bitmask as a binary digit string for the engine "leds" file. -/
def bin_to_string (n : Nat) : String := (Nat.toDigits 2 n).asString

/-- key_backlight_mask as assigned by setup_key_backlight per product. -/
def key_backlight_mask (p : ProductId) : Nat :=
  if p = ProductId.rm690 ∨ p = ProductId.rm680 then
    MCE_LYSTI_KB_BACKLIGHT_MASK_RM680
  else if p = ProductId.rx51 then
    MCE_LYSTI_KB_BACKLIGHT_MASK_RX51
  else 0

/-- The hex digit table `convert` of set_lysti_backlight_brightness. -/
def convert : List Char := "0123456789abcdef".toList

/-- convert[v] for a nibble value. -/
def hexNibble (v : Nat) : Char := convert.getD v '0'

/-- Two hex characters `convert[(v & 0xf0) >> 4]`, `convert[v & 0xf]`
as written into the Lysti pattern. -/
def hex2 (v : Nat) : String :=
  String.mk [hexNibble ((v &&& 0xf0) >>> 4), hexNibble (v &&& 0xf)]

/-- Configuration loaded once by g_module_check_init. -/
structure KeypadConf where
  key_backlight_timeout : Int
  key_backlight_fade_in_time : Int
  key_backlight_fade_out_time : Int
deriving DecidableEq

/-- The file-static mutable state of keypad.c. -/
structure KeypadState where
  /-- key_backlight_timeout_cb_id: 0 means no timer scheduled. -/
  key_backlight_timeout_cb_id : Nat
  /-- key_backlight_is_enabled. -/
  key_backlight_is_enabled : Bool
  /-- static cached_brightness of set_backlight_brightness (-1 = unset). -/
  cached_brightness : Int
  /-- static old_brightness of set_lysti_backlight_brightness. -/
  old_brightness : Int
  /-- static old_display_state of display_state_trigger. -/
  old_display_state : DisplayState
  /-- cached value of key_backlight_pipe (read by datapipe_get_guint). -/
  key_backlight_pipe_level : Int
  /-- model artifact: source of fresh nonzero glib timer ids. -/
  next_timer_id : Nat
deriving DecidableEq

/-- Read-only datapipe environment: values returned by the synchronous
datapipe_get_* reads and get_product_id() during one trigger. -/
structure DatapipeEnv where
  product : ProductId
  keyboard_slide : CoverState
  system_state : SystemState
  alarm_ui_state : AlarmUiState
  submode : Nat
deriving DecidableEq

/-- Is this action a hardware (sysfs) write? -/
def is_hw_write : Action → Bool
  | Action.writeStr _ _ => true
  | Action.writeNum _ _ => true
  | _ => false

/-- Is this action a timer start? -/
def is_timer_start : Action → Bool
  | Action.timerStart _ => true
  | _ => false

/-- Is this action a push into the key_backlight level channel? -/
def is_push_level : Action → Bool
  | Action.pushLevel _ => true
  | _ => false

/-- The hardware writes contained in an action trace. -/
def hardwareWrites (l : List Action) : List Action := l.filter is_hw_write

/-- The raw step speed of set_lysti_backlight_brightness before the sanity
clamp: `(((fadetime * 1000) / ABS(steps)) / 0.49) / 1000` truncated to gint.
`fadetime * 1000` is guint arithmetic (wraps mod 2^32); the unsigned
integer division by ABS(steps) happens first; the two double divisions by
0.49 and 1000 followed by truncation of the positive result are modelled
by the exact rational floor, i.e. multiply by 100, divide by 49, divide by
1000 in integer arithmetic.  Includes the paranoid steps == 0 branch. -/
def lysti_stepspeed_prelim (fadetime : Nat) (steps : Int) : Int :=
  if steps = 0 then 1
  else ((((fadetime * 1000) % 4294967296) / steps.natAbs * 100 / 49 / 1000 : Nat) : Int)

/-- The sanity clamp on the step speed: below 1 becomes 1, above 31 becomes 31. -/
def clamp31 (x : Int) : Int := if x < 1 then 1 else if x > 31 then 31 else x

/-- Full step-speed computation of the fade branch: clamped raw speed,
doubled, plus 1 when not increasing (even = increment, odd = decrement). -/
def lysti_stepspeed (fadetime : Nat) (steps : Int) : Int :=
  clamp31 (lysti_stepspeed_prelim fadetime steps) * 2 +
    (if steps > 0 then 0 else 1)

/-- The 16-character engine-3 pattern built by set_lysti_backlight_brightness.
Layout (character indices): [0..3] remux "9d80", [4..5] fixed "40",
[6..7] start brightness, [8..9] step speed, [10..11] step count,
[12..15] stop "c000".  The no-fade branch (fadetime or delta zero) writes
the target brightness into [6..7] and zeroes [8..11]. -/
def lysti_pattern (old_brightness : Int) (fadetime brightness : Nat) : String :=
  let steps : Int := gintOf brightness - old_brightness
  if fadetime = 0 ∨ steps = 0 then
    "9d80" ++ "40" ++ hex2 brightness ++ "0000" ++ "c000"
  else
    "9d80" ++ "40" ++ hex2 (guintOf old_brightness) ++
      hex2 (guintOf (lysti_stepspeed fadetime steps)) ++
      hex2 steps.natAbs ++ "c000"

/-- The sequence of sysfs writes issued by set_lysti_backlight_brightness
after the pattern is built, in program order. -/
def lysti_hw_writes (mask : Nat) (pattern : String) : List Action :=
  [Action.writeStr HwPath.engine3_mode MCE_LED_DISABLED_MODE,
   Action.writeNum (HwPath.led_brightness_kb 0) 0,
   Action.writeNum (HwPath.led_brightness_kb 1) 0,
   Action.writeNum (HwPath.led_brightness_kb 2) 0,
   Action.writeNum (HwPath.led_brightness_kb 3) 0,
   Action.writeNum (HwPath.led_brightness_kb 4) 0,
   Action.writeNum (HwPath.led_brightness_kb 5) 0,
   Action.writeNum (HwPath.led_current_kb 0) MAXIMUM_LYSTI_BACKLIGHT_LED_CURRENT,
   Action.writeNum (HwPath.led_current_kb 1) MAXIMUM_LYSTI_BACKLIGHT_LED_CURRENT,
   Action.writeNum (HwPath.led_current_kb 2) MAXIMUM_LYSTI_BACKLIGHT_LED_CURRENT,
   Action.writeNum (HwPath.led_current_kb 3) MAXIMUM_LYSTI_BACKLIGHT_LED_CURRENT,
   Action.writeNum (HwPath.led_current_kb 4) MAXIMUM_LYSTI_BACKLIGHT_LED_CURRENT,
   Action.writeNum (HwPath.led_current_kb 5) MAXIMUM_LYSTI_BACKLIGHT_LED_CURRENT,
   Action.writeStr HwPath.engine3_mode MCE_LED_LOAD_MODE,
   Action.writeStr HwPath.engine3_leds (bin_to_string mask),
   Action.writeStr HwPath.engine3_load pattern,
   Action.writeStr HwPath.engine3_mode MCE_LED_RUN_MODE]

/-- set_lysti_backlight_brightness(fadetime, brightness): the ALS guard
(old brightness 0 and no timer pending → ignore), else build the pattern,
store the new brightness into old_brightness, and issue the writes. -/
def set_lysti_backlight_brightness (p : ProductId) (s : KeypadState)
    (fadetime brightness : Nat) : KeypadState × List Action :=
  if s.old_brightness = 0 ∧ s.key_backlight_timeout_cb_id = 0 then
    (s, [])
  else
    ({ s with old_brightness := gintOf brightness },
     lysti_hw_writes (key_backlight_mask p)
       (lysti_pattern s.old_brightness fadetime brightness))

/-- set_n810_backlight_brightness(fadetime, brightness): write the fade
time (only when dimming to zero) to the two fadetime files, then the raw
brightness to the two brightness files.  No module state is touched. -/
def set_n810_backlight_brightness (fadetime brightness : Nat) : List Action :=
  (if brightness = 0 then
    [Action.writeNum HwPath.n810_keypad_fadetime (fadetime : Int),
     Action.writeNum HwPath.n810_keyboard_fadetime (fadetime : Int)]
   else
    [Action.writeNum HwPath.n810_keypad_fadetime 0,
     Action.writeNum HwPath.n810_keyboard_fadetime 0]) ++
  [Action.writeNum (HwPath.led_brightness_kb 0) (brightness : Int),
   Action.writeNum (HwPath.led_brightness_kb 1) (brightness : Int)]

/-- set_backlight_brightness(data): the key_backlight_pipe output trigger.
Chooses the fade time, deduplicates against cached_brightness and the -1
sentinel, updates cached_brightness and key_backlight_is_enabled, then
dispatches on the product id. -/
def set_backlight_brightness (env : DatapipeEnv) (conf : KeypadConf)
    (s : KeypadState) (data : Int) : KeypadState × List Action :=
  let new_brightness := data
  let fadetime : Int :=
    if new_brightness = 0 then conf.key_backlight_fade_out_time
    else conf.key_backlight_fade_in_time
  if new_brightness = s.cached_brightness ∨ new_brightness = -1 then
    (s, [])
  else
    let s1 := { s with
      cached_brightness := new_brightness,
      key_backlight_is_enabled := new_brightness != 0 }
    if env.product = ProductId.rm690 ∨ env.product = ProductId.rm680 ∨
       env.product = ProductId.rx51 then
      set_lysti_backlight_brightness env.product s1
        (guintOf fadetime) (guintOf new_brightness)
    else if env.product = ProductId.rx48 ∨ env.product = ProductId.rx44 then
      (s1, set_n810_backlight_brightness (guintOf fadetime) (guintOf new_brightness))
    else
      (s1, [])

/-- execute_datapipe(&key_backlight_pipe, level, USE_INDATA, CACHE_INDATA):
caches the level in the pipe and runs the output trigger
set_backlight_brightness. -/
def execute_key_backlight_pipe (env : DatapipeEnv) (conf : KeypadConf)
    (s : KeypadState) (level : Int) : KeypadState × List Action :=
  let s1 := { s with key_backlight_pipe_level := level }
  let r := set_backlight_brightness env conf s1 level
  (r.1, Action.pushLevel level :: r.2)

/-- cancel_key_backlight_timeout: remove the glib source if one exists. -/
def cancel_key_backlight_timeout (s : KeypadState) : KeypadState × List Action :=
  if s.key_backlight_timeout_cb_id ≠ 0 then
    ({ s with key_backlight_timeout_cb_id := 0 },
     [Action.timerCancel s.key_backlight_timeout_cb_id])
  else
    (s, [])

/-- setup_key_backlight_timeout: cancel, then g_timeout_add_seconds with
the configured timeout (glib ids are nonzero; modelled by next_timer_id+1). -/
def setup_key_backlight_timeout (conf : KeypadConf) (s : KeypadState) :
    KeypadState × List Action :=
  let r := cancel_key_backlight_timeout s
  let id := r.1.next_timer_id + 1
  ({ r.1 with key_backlight_timeout_cb_id := id, next_timer_id := id },
   r.2 ++ [Action.timerStart conf.key_backlight_timeout])

/-- disable_key_backlight: cancel any pending timer, push 0 through the
key backlight level channel. -/
def disable_key_backlight (env : DatapipeEnv) (conf : KeypadConf)
    (s : KeypadState) : KeypadState × List Action :=
  let r1 := cancel_key_backlight_timeout s
  let r2 := execute_key_backlight_pipe env conf r1.1 0
  (r2.1, r1.2 ++ r2.2)

/-- enable_key_backlight: cancel the timer; require the slide open; start
the inactivity timer; if the pipe level is 0, push the default level. -/
def enable_key_backlight (env : DatapipeEnv) (conf : KeypadConf)
    (s : KeypadState) : KeypadState × List Action :=
  let r1 := cancel_key_backlight_timeout s
  if env.keyboard_slide ≠ CoverState.cover_open then
    (r1.1, r1.2)
  else
    let r2 := setup_key_backlight_timeout conf r1.1
    if r2.1.key_backlight_pipe_level = 0 then
      let r3 := execute_key_backlight_pipe env conf r2.1 DEFAULT_KEY_BACKLIGHT_LEVEL
      (r3.1, r1.2 ++ r2.2 ++ r3.2)
    else
      (r2.1, r1.2 ++ r2.2)

/-- enable_key_backlight_policy: requires the slide open and (USER state
or alarm UI visible/ringing); if a timer is active just restart it, else
perform the unconditional enable. -/
def enable_key_backlight_policy (env : DatapipeEnv) (conf : KeypadConf)
    (s : KeypadState) : KeypadState × List Action :=
  if env.keyboard_slide ≠ CoverState.cover_open then
    (s, [])
  else if env.system_state = SystemState.user ∨
          env.alarm_ui_state = AlarmUiState.visible ∨
          env.alarm_ui_state = AlarmUiState.ringing then
    if s.key_backlight_timeout_cb_id ≠ 0 then
      setup_key_backlight_timeout conf s
    else
      enable_key_backlight env conf s
  else
    (s, [])

/-- keyboard_slide_trigger(data): enable policy when opened and the
keylock submode bit is clear, else disable. -/
def keyboard_slide_trigger (env : DatapipeEnv) (conf : KeypadConf)
    (s : KeypadState) (data : CoverState) : KeypadState × List Action :=
  if data = CoverState.cover_open ∧ env.submode &&& MCE_TKLOCK_SUBMODE = 0 then
    enable_key_backlight_policy env conf s
  else
    disable_key_backlight env conf s

/-- display_state_trigger(data): deduplicate against old_display_state;
dim/off/low-power force disable; entering "on" re-evaluates the enable
policy; undefined falls through the switch; finally the last-seen state
is updated. -/
def display_state_trigger (env : DatapipeEnv) (conf : KeypadConf)
    (s : KeypadState) (d : DisplayState) : KeypadState × List Action :=
  if s.old_display_state = d then
    (s, [])
  else
    let r :=
      if d = DisplayState.off ∨ d = DisplayState.lpm_off ∨
         d = DisplayState.lpm_on ∨ d = DisplayState.dim then
        disable_key_backlight env conf s
      else if d = DisplayState.on then
        if s.old_display_state ≠ DisplayState.on then
          enable_key_backlight_policy env conf s
        else
          (s, [])
      else
        (s, [])
    ({ r.1 with old_display_state := d }, r.2)

/-- system_state_trigger(data): disable unless the new state is USER. -/
def system_state_trigger (env : DatapipeEnv) (conf : KeypadConf)
    (s : KeypadState) (d : SystemState) : KeypadState × List Action :=
  if d ≠ SystemState.user then
    disable_key_backlight env conf s
  else
    (s, [])

/-- device_inactive_trigger(data): on activity, re-evaluate the policy. -/
def device_inactive_trigger (env : DatapipeEnv) (conf : KeypadConf)
    (s : KeypadState) (device_inactive : Bool) : KeypadState × List Action :=
  if device_inactive = false then
    enable_key_backlight_policy env conf s
  else
    (s, [])

/-- send_key_backlight_state: the boolean payload of the D-Bus status
reply is exactly key_backlight_is_enabled. -/
def send_key_backlight_state (s : KeypadState) : Bool :=
  s.key_backlight_is_enabled

/-- The fade-in sanitization of g_module_check_init: reset to the default
when the configured value is not a multiple of 125 AND exceeds 1000. -/
def g_module_check_init_fade_in (raw : Int) : Int :=
  if raw % 125 ≠ 0 ∧ raw > 1000 then DEFAULT_KEY_BACKLIGHT_FADE_IN_TIME else raw

/-- The fade-out sanitization of g_module_check_init (same condition). -/
def g_module_check_init_fade_out (raw : Int) : Int :=
  if raw % 125 ≠ 0 ∧ raw > 1000 then DEFAULT_KEY_BACKLIGHT_FADE_OUT_TIME else raw

/-- The fade-time sanitization rule as the spec words it: the value must
be a multiple of 125 when it is under 1000, otherwise (when it violates
this) it is reset to the default.  Stated only to be compared against the
rule the code implements. -/
def fade_time_sanitize_spec (raw dflt : Int) : Int :=
  if raw < 1000 ∧ raw % 125 ≠ 0 then dflt else raw

/-- The initial values of the file-static state of keypad.c. -/
def keypad_init_state : KeypadState :=
  { key_backlight_timeout_cb_id := 0
  , key_backlight_is_enabled := false
  , cached_brightness := -1
  , old_brightness := 0
  , old_display_state := DisplayState.undef
  , key_backlight_pipe_level := 0
  , next_timer_id := 0 }

/-- A concrete RX-51 (Lysti) environment: slide open, USER state. -/
def env_rx51 : DatapipeEnv :=
  { product := ProductId.rx51
  , keyboard_slide := CoverState.cover_open
  , system_state := SystemState.user
  , alarm_ui_state := AlarmUiState.off
  , submode := 0 }

/-- The default configuration values. -/
def conf_default : KeypadConf :=
  { key_backlight_timeout := DEFAULT_KEY_BACKLIGHT_TIMEOUT
  , key_backlight_fade_in_time := DEFAULT_KEY_BACKLIGHT_FADE_IN_TIME
  , key_backlight_fade_out_time := DEFAULT_KEY_BACKLIGHT_FADE_OUT_TIME }

/-! ### Helper lemmas -/

/-- cancel_key_backlight_timeout only clears the timer id. -/
theorem cancel_state (s : KeypadState) :
    (cancel_key_backlight_timeout s).1 = { s with key_backlight_timeout_cb_id := 0 } := by
  unfold cancel_key_backlight_timeout
  split
  · rfl
  · next h =>
    simp at h
    cases s
    simp_all

/-- cancel_key_backlight_timeout never starts a timer or pushes a level. -/
theorem cancel_acts (s : KeypadState) :
    (cancel_key_backlight_timeout s).2.filter is_timer_start = [] ∧
    (cancel_key_backlight_timeout s).2.filter is_push_level = [] := by
  unfold cancel_key_backlight_timeout
  split <;> simp [is_timer_start, is_push_level]

/-- A datapipe dedup hit (cached value or -1 sentinel) is a complete no-op. -/
theorem sbb_noop (env : DatapipeEnv) (conf : KeypadConf) (s : KeypadState) (n : Int)
    (h : n = s.cached_brightness ∨ n = -1) :
    set_backlight_brightness env conf s n = (s, []) := by
  simp only [set_backlight_brightness]
  rw [if_pos h]

/-- After a request that passes dedup, cached_brightness holds the request. -/
theorem sbb_cached (env : DatapipeEnv) (conf : KeypadConf) (s : KeypadState) (n : Int)
    (h : n ≠ -1) :
    (set_backlight_brightness env conf s n).1.cached_brightness = n := by
  simp only [set_backlight_brightness, set_lysti_backlight_brightness]
  repeat' split
  all_goals simp_all

/-- set_backlight_brightness never touches the timer id. -/
theorem sbb_cb (env : DatapipeEnv) (conf : KeypadConf) (s : KeypadState) (n : Int) :
    (set_backlight_brightness env conf s n).1.key_backlight_timeout_cb_id =
      s.key_backlight_timeout_cb_id := by
  simp only [set_backlight_brightness, set_lysti_backlight_brightness]
  repeat' split
  all_goals simp

/-- After a request that passes dedup, the enabled flag is (level != 0). -/
theorem sbb_enabled (env : DatapipeEnv) (conf : KeypadConf) (s : KeypadState) (n : Int)
    (h1 : n ≠ s.cached_brightness) (h2 : n ≠ -1) :
    (set_backlight_brightness env conf s n).1.key_backlight_is_enabled = (n != 0) := by
  simp only [set_backlight_brightness, set_lysti_backlight_brightness]
  rw [if_neg (by simp [h1, h2])]
  repeat' split
  all_goals simp

/-- The Lysti write burst contains neither timer starts nor level pushes. -/
theorem lysti_writes_acts (mask : Nat) (pat : String) :
    (lysti_hw_writes mask pat).filter is_timer_start = [] ∧
    (lysti_hw_writes mask pat).filter is_push_level = [] := by
  simp [lysti_hw_writes, is_timer_start, is_push_level]

/-- set_backlight_brightness emits only hardware writes: no timer starts
and no level pushes. -/
theorem sbb_acts (env : DatapipeEnv) (conf : KeypadConf) (s : KeypadState) (n : Int) :
    (set_backlight_brightness env conf s n).2.filter is_timer_start = [] ∧
    (set_backlight_brightness env conf s n).2.filter is_push_level = [] := by
  simp only [set_backlight_brightness, set_lysti_backlight_brightness,
    set_n810_backlight_brightness]
  repeat' split
  all_goals simp [lysti_writes_acts, is_timer_start, is_push_level]

/-- execute_datapipe on the level pipe preserves the timer id. -/
theorem exec_cb (env : DatapipeEnv) (conf : KeypadConf) (s : KeypadState) (l : Int) :
    (execute_key_backlight_pipe env conf s l).1.key_backlight_timeout_cb_id =
      s.key_backlight_timeout_cb_id := by
  simp only [execute_key_backlight_pipe]
  rw [sbb_cb]

/-- disable_key_backlight leaves no timer scheduled. -/
theorem disable_cb (env : DatapipeEnv) (conf : KeypadConf) (s : KeypadState) :
    (disable_key_backlight env conf s).1.key_backlight_timeout_cb_id = 0 := by
  simp only [disable_key_backlight]
  rw [exec_cb, cancel_state]

/-- disable_key_backlight pushes level 0 through the level channel. -/
theorem disable_push (env : DatapipeEnv) (conf : KeypadConf) (s : KeypadState) :
    Action.pushLevel 0 ∈ (disable_key_backlight env conf s).2 := by
  simp [disable_key_backlight, execute_key_backlight_pipe]

/-- disable_key_backlight never starts a timer. -/
theorem disable_no_timer (env : DatapipeEnv) (conf : KeypadConf) (s : KeypadState) :
    (disable_key_backlight env conf s).2.filter is_timer_start = [] := by
  simp only [disable_key_backlight, execute_key_backlight_pipe]
  simp [List.filter_append, (cancel_acts s).1, (sbb_acts env conf _ 0).1, is_timer_start]

/-- setup_key_backlight_timeout installs a fresh nonzero timer id and
changes nothing else. -/
theorem setup_state (conf : KeypadConf) (s : KeypadState) :
    (setup_key_backlight_timeout conf s).1 =
      { s with key_backlight_timeout_cb_id := s.next_timer_id + 1,
               next_timer_id := s.next_timer_id + 1 } := by
  simp only [setup_key_backlight_timeout]
  rw [cancel_state]

/-- setup_key_backlight_timeout pushes no level. -/
theorem setup_no_push (conf : KeypadConf) (s : KeypadState) :
    (setup_key_backlight_timeout conf s).2.filter is_push_level = [] := by
  simp only [setup_key_backlight_timeout]
  simp [List.filter_append, (cancel_acts s).2, is_push_level]

/-! ### Claim theorems -/

/-- C1 (counterexample): with the initial state (previous Lysti brightness
0, no timer scheduled, cached_brightness -1) a request for level 128
through the Lysti backend produces no hardware writes, but it is NOT a
complete no-op: cached_brightness changes from -1 to 128, refuting "no
state changes, in particular the cached_brightness value ... is
unchanged". -/
theorem C1_counterexample :
    keypad_init_state.old_brightness = 0 ∧
    keypad_init_state.key_backlight_timeout_cb_id = 0 ∧
    (set_backlight_brightness env_rx51 conf_default keypad_init_state 128).2 = [] ∧
    (set_backlight_brightness env_rx51 conf_default keypad_init_state 128).1.cached_brightness ≠
      keypad_init_state.cached_brightness := by
  decide

/-- C1 (amended): when the backend-local previous brightness is 0 and no
inactivity timer is scheduled, a nonzero level request routed to the Lysti
backend performs no hardware writes (and no actions at all) and leaves the
backend-local old_brightness unchanged; however the dispatcher has already
recorded the request in cached_brightness and set the enabled flag before
the guard ignores it, so those two fields do change. -/
theorem C1_lysti_guard (env : DatapipeEnv) (conf : KeypadConf) (s : KeypadState) (n : Int)
    (hp : env.product = ProductId.rm690 ∨ env.product = ProductId.rm680 ∨
          env.product = ProductId.rx51)
    (hold : s.old_brightness = 0)
    (htimer : s.key_backlight_timeout_cb_id = 0)
    (hc : n ≠ s.cached_brightness) (hs : n ≠ -1) (hnz : n ≠ 0) :
    (set_backlight_brightness env conf s n).2 = [] ∧
    (set_backlight_brightness env conf s n).1.old_brightness = 0 ∧
    (set_backlight_brightness env conf s n).1.cached_brightness = n ∧
    (set_backlight_brightness env conf s n).1.key_backlight_is_enabled = true := by
  rcases hp with hp | hp | hp <;>
    simp [set_backlight_brightness, set_lysti_backlight_brightness,
      hc, hs, hp, hold, htimer, hnz]

/-- C1 witness: the amended statement at the explicit scenario
old_brightness = 0, no timer, request 128 on RX-51. -/
theorem C1_lysti_guard_witness :
    (set_backlight_brightness env_rx51 conf_default keypad_init_state 128).2 = [] ∧
    (set_backlight_brightness env_rx51 conf_default keypad_init_state 128).1.old_brightness = 0 ∧
    (set_backlight_brightness env_rx51 conf_default keypad_init_state 128).1.cached_brightness = 128 ∧
    (set_backlight_brightness env_rx51 conf_default keypad_init_state 128).1.key_backlight_is_enabled
      = true :=
  C1_lysti_guard env_rx51 conf_default keypad_init_state 128
    (Or.inr (Or.inr rfl)) rfl rfl (by decide) (by decide) (by decide)

/-- C2: in every state, disable_key_backlight cancels any pending timer
(the resulting timer id is 0, whether or not one existed) and pushes
level 0 through the key backlight level channel; being a total function
it never throws, and invoking it again on the already-disabled result
again pushes level 0. -/
theorem C2_disable_idempotent (env : DatapipeEnv) (conf : KeypadConf) (s : KeypadState) :
    (disable_key_backlight env conf s).1.key_backlight_timeout_cb_id = 0 ∧
    Action.pushLevel 0 ∈ (disable_key_backlight env conf s).2 ∧
    (disable_key_backlight env conf
        (disable_key_backlight env conf s).1).1.key_backlight_timeout_cb_id = 0 ∧
    Action.pushLevel 0 ∈
      (disable_key_backlight env conf (disable_key_backlight env conf s).1).2 :=
  ⟨disable_cb env conf s, disable_push env conf s,
   disable_cb env conf _, disable_push env conf _⟩

/-- C3 (counterexample): a configured fade time of 100 ms is under 1000 ms
and not a multiple of 125 ms, so the claim requires it to be reset to the
documented default; g_module_check_init keeps it as 100. -/
theorem C3_counterexample :
    g_module_check_init_fade_in 100 = 100 ∧
    fade_time_sanitize_spec 100 DEFAULT_KEY_BACKLIGHT_FADE_IN_TIME =
      DEFAULT_KEY_BACKLIGHT_FADE_IN_TIME ∧
    DEFAULT_KEY_BACKLIGHT_FADE_IN_TIME ≠ 100 ∧
    (100 : Int) % 125 ≠ 0 ∧ (100 : Int) < 1000 := by
  decide

/-- C3 (amended): the startup sanitization keeps every configured fade-in
and fade-out time that is a multiple of 125 ms or at most 1000 ms, and
resets the value to the documented default exactly when it is not a
multiple of 125 ms AND exceeds 1000 ms. -/
theorem C3_fade_sanitize (raw : Int) :
    ((raw % 125 = 0 ∨ raw ≤ 1000) →
      g_module_check_init_fade_in raw = raw ∧
      g_module_check_init_fade_out raw = raw) ∧
    ((raw % 125 ≠ 0 ∧ raw > 1000) →
      g_module_check_init_fade_in raw = DEFAULT_KEY_BACKLIGHT_FADE_IN_TIME ∧
      g_module_check_init_fade_out raw = DEFAULT_KEY_BACKLIGHT_FADE_OUT_TIME) := by
  constructor
  · intro h
    have hn : ¬(raw % 125 ≠ 0 ∧ raw > 1000) := by omega
    simp only [g_module_check_init_fade_in, g_module_check_init_fade_out]
    rw [if_neg hn, if_neg hn]
    exact ⟨rfl, rfl⟩
  · intro h
    simp only [g_module_check_init_fade_in, g_module_check_init_fade_out]
    rw [if_pos h, if_pos h]
    exact ⟨rfl, rfl⟩

/-- C3 witness: 1300 ms is not a multiple of 125 and exceeds 1000, so both
fade times are reset to their defaults; 750 ms is kept. -/
theorem C3_fade_sanitize_witness :
    (g_module_check_init_fade_in 1300 = DEFAULT_KEY_BACKLIGHT_FADE_IN_TIME ∧
     g_module_check_init_fade_out 1300 = DEFAULT_KEY_BACKLIGHT_FADE_OUT_TIME) ∧
    (g_module_check_init_fade_in 750 = 750 ∧
     g_module_check_init_fade_out 750 = 750) :=
  ⟨(C3_fade_sanitize 1300).2 (by decide),
   (C3_fade_sanitize 750).1 (by decide)⟩

/-- C4: a level request equal to the cached last-applied level, or equal
to the -1 "unset" sentinel, is a complete no-op (no hardware writes, no
state change, so the enabled flag and cached level are untouched); and for
every non-sentinel request, immediately repeating the same request after
it has been applied produces no additional actions at all. -/
theorem C4_level_dedup (env : DatapipeEnv) (conf : KeypadConf) (s : KeypadState) (n : Int) :
    ((n = s.cached_brightness ∨ n = -1) →
      set_backlight_brightness env conf s n = (s, [])) ∧
    (n ≠ -1 →
      set_backlight_brightness env conf (set_backlight_brightness env conf s n).1 n =
        ((set_backlight_brightness env conf s n).1, [])) :=
  ⟨fun h => sbb_noop env conf s n h,
   fun h => sbb_noop env conf _ n (Or.inl (sbb_cached env conf s n h).symm)⟩

/-- C4 witness: repeating the cached level 5 is a no-op, and repeating the
request 128 right after it has been applied adds no further actions. -/
theorem C4_level_dedup_witness :
    set_backlight_brightness env_rx51 conf_default
        { keypad_init_state with cached_brightness := 5 } 5 =
      ({ keypad_init_state with cached_brightness := 5 }, []) ∧
    set_backlight_brightness env_rx51 conf_default
        (set_backlight_brightness env_rx51 conf_default keypad_init_state 128).1 128 =
      ((set_backlight_brightness env_rx51 conf_default keypad_init_state 128).1, []) :=
  ⟨(C4_level_dedup env_rx51 conf_default _ 5).1 (Or.inl rfl),
   (C4_level_dedup env_rx51 conf_default keypad_init_state 128).2 (by decide)⟩

/-- With the slide open, enable_key_backlight always leaves a timer
scheduled, and pushes the default level whenever the current pipe level
is 0. -/
theorem enable_props (env : DatapipeEnv) (conf : KeypadConf) (s : KeypadState)
    (hs : env.keyboard_slide = CoverState.cover_open) :
    (enable_key_backlight env conf s).1.key_backlight_timeout_cb_id ≠ 0 ∧
    (s.key_backlight_pipe_level = 0 →
      Action.pushLevel DEFAULT_KEY_BACKLIGHT_LEVEL ∈ (enable_key_backlight env conf s).2) := by
  simp only [enable_key_backlight]
  rw [if_neg (by simp [hs])]
  constructor
  · split
    · rw [exec_cb, setup_state]
      simp
    · rw [setup_state]
      simp
  · intro hl
    split
    · simp [execute_key_backlight_pipe]
    · next h =>
      rw [setup_state, cancel_state] at h
      simp [hl] at h

/-- C5: the policy-gated enable is a no-op unless the keyboard slide is
open and the system is in USER state or the alarm UI is visible/ringing;
when the gate passes and a timer is already running, the call equals a
bare timer restart (which pushes no level and leaves a timer scheduled);
when the gate passes with no timer running, it equals the unconditional
enable, which leaves a timer scheduled and, if the current pipe level is
0, pushes the default "on" level. -/
theorem C5_enable_policy (env : DatapipeEnv) (conf : KeypadConf) (s : KeypadState) :
    (env.keyboard_slide ≠ CoverState.cover_open →
      enable_key_backlight_policy env conf s = (s, [])) ∧
    (¬(env.system_state = SystemState.user ∨ env.alarm_ui_state = AlarmUiState.visible ∨
        env.alarm_ui_state = AlarmUiState.ringing) →
      enable_key_backlight_policy env conf s = (s, [])) ∧
    (env.keyboard_slide = CoverState.cover_open →
      (env.system_state = SystemState.user ∨ env.alarm_ui_state = AlarmUiState.visible ∨
        env.alarm_ui_state = AlarmUiState.ringing) →
      s.key_backlight_timeout_cb_id ≠ 0 →
      enable_key_backlight_policy env conf s = setup_key_backlight_timeout conf s ∧
      (setup_key_backlight_timeout conf s).2.filter is_push_level = [] ∧
      (setup_key_backlight_timeout conf s).1.key_backlight_timeout_cb_id ≠ 0) ∧
    (env.keyboard_slide = CoverState.cover_open →
      (env.system_state = SystemState.user ∨ env.alarm_ui_state = AlarmUiState.visible ∨
        env.alarm_ui_state = AlarmUiState.ringing) →
      s.key_backlight_timeout_cb_id = 0 →
      enable_key_backlight_policy env conf s = enable_key_backlight env conf s ∧
      (enable_key_backlight env conf s).1.key_backlight_timeout_cb_id ≠ 0 ∧
      (s.key_backlight_pipe_level = 0 →
        Action.pushLevel DEFAULT_KEY_BACKLIGHT_LEVEL ∈ (enable_key_backlight env conf s).2)) := by
  refine ⟨?_, ?_, ?_, ?_⟩
  · intro h
    simp only [enable_key_backlight_policy]
    rw [if_pos h]
  · intro h
    simp only [enable_key_backlight_policy]
    by_cases hs : env.keyboard_slide ≠ CoverState.cover_open
    · rw [if_pos hs]
    · rw [if_neg hs, if_neg h]
  · intro h1 h2 h3
    refine ⟨?_, setup_no_push conf s, ?_⟩
    · simp only [enable_key_backlight_policy]
      rw [if_neg (by simp [h1]), if_pos h2, if_pos h3]
    · rw [setup_state]
      simp
  · intro h1 h2 h3
    refine ⟨?_, (enable_props env conf s h1).1, (enable_props env conf s h1).2⟩
    simp only [enable_key_backlight_policy]
    rw [if_neg (by simp [h1]), if_pos h2, if_neg (by simp [h3])]

/-- C5 witness: slide open, USER state, pipe level 0, no timer (the
initial state on RX-51): the policy call equals the unconditional enable,
schedules a timer, and pushes the default "on" level. -/
theorem C5_enable_policy_witness :
    enable_key_backlight_policy env_rx51 conf_default keypad_init_state =
      enable_key_backlight env_rx51 conf_default keypad_init_state ∧
    (enable_key_backlight env_rx51 conf_default keypad_init_state).1.key_backlight_timeout_cb_id
      ≠ 0 ∧
    Action.pushLevel DEFAULT_KEY_BACKLIGHT_LEVEL ∈
      (enable_key_backlight env_rx51 conf_default keypad_init_state).2 := by
  have h := (C5_enable_policy env_rx51 conf_default keypad_init_state).2.2.2
    rfl (Or.inl rfl) rfl
  exact ⟨h.1, h.2.1, h.2.2 rfl⟩

/-- C6: for every fade time and brightness delta (including delta 1 and
arbitrarily large fade times, whose guint multiplication wraps), the fade
step rate after the sanity check lies in [1, 31]; the value actually
programmed is that clamped rate doubled, plus 1 exactly when the
brightness is decreasing. -/
theorem C6_stepspeed_clamp (fadetime : Nat) (steps : Int) :
    1 ≤ clamp31 (lysti_stepspeed_prelim fadetime steps) ∧
    clamp31 (lysti_stepspeed_prelim fadetime steps) ≤ 31 ∧
    (steps ≠ 0 →
      lysti_stepspeed fadetime steps =
        2 * clamp31 (lysti_stepspeed_prelim fadetime steps) +
          (if steps < 0 then 1 else 0)) := by
  refine ⟨?_, ?_, ?_⟩
  · unfold clamp31
    split_ifs <;> omega
  · unfold clamp31
    split_ifs <;> omega
  · intro h
    unfold lysti_stepspeed
    split_ifs <;> omega

/-- C6 witness: delta 1 with a fade time large enough to overflow guint
still clamps into [1, 31]; the encoded value is 2·31 + 0 = 62. -/
theorem C6_stepspeed_clamp_witness :
    1 ≤ clamp31 (lysti_stepspeed_prelim 5000000000 1) ∧
    clamp31 (lysti_stepspeed_prelim 5000000000 1) ≤ 31 ∧
    lysti_stepspeed 5000000000 1 =
      2 * clamp31 (lysti_stepspeed_prelim 5000000000 1) + (if (1 : Int) < 0 then 1 else 0) :=
  ⟨(C6_stepspeed_clamp 5000000000 1).1,
   (C6_stepspeed_clamp 5000000000 1).2.1,
   (C6_stepspeed_clamp 5000000000 1).2.2 (by decide)⟩

/-- C7: for old brightness 64, new brightness 192, fade time 500 ms the
generated pattern is exactly "9d80"(remux) ++ "40" ++ start=hex(64) ++
rate=hex(14) ++ steps=hex(128) ++ "c000"(stop) = "9d8040400e80c000"; the
rate 14 comes from the documented formula (raw clamp gives 7, doubled,
direction bit 0 because the delta +128 is increasing and 14 is even);
and whenever the fade time or the delta is 0, the pattern instead jumps
directly to the target brightness with a zeroed fade field. -/
theorem C7_fade_pattern :
    lysti_pattern 64 500 192 =
      "9d80" ++ "40" ++ hex2 64 ++ hex2 14 ++ hex2 128 ++ "c000" ∧
    lysti_pattern 64 500 192 = "9d8040400e80c000" ∧
    gintOf 192 - 64 = 128 ∧
    clamp31 (lysti_stepspeed_prelim 500 128) = 7 ∧
    lysti_stepspeed 500 128 = 14 ∧
    (14 : Int) % 2 = 0 ∧
    (∀ (old_brightness : Int) (fadetime brightness : Nat),
      fadetime = 0 ∨ gintOf brightness - old_brightness = 0 →
      lysti_pattern old_brightness fadetime brightness =
        "9d80" ++ "40" ++ hex2 brightness ++ "0000" ++ "c000") := by
  refine ⟨by decide, by decide, by decide, by decide, by decide, by decide, ?_⟩
  intro ob ft br h
  simp only [lysti_pattern]
  rw [if_pos h]

/-- C7 witness: the no-fade clause at fade time 0, brightness 192. -/
theorem C7_fade_pattern_witness :
    lysti_pattern 64 0 192 = "9d80" ++ "40" ++ hex2 192 ++ "0000" ++ "c000" :=
  C7_fade_pattern.2.2.2.2.2.2 64 0 192 (Or.inl rfl)

/-- C8 (counterexample): with last-seen display state ON, delivering the
UNDEF display state invokes neither disable nor the enable policy (no
actions), yet it is not "nothing happens": the stored last-seen state
changes to UNDEF, so the module state does change. -/
theorem C8_counterexample :
    (display_state_trigger env_rx51 conf_default
        { keypad_init_state with old_display_state := DisplayState.on }
        DisplayState.undef).2 = [] ∧
    (display_state_trigger env_rx51 conf_default
        { keypad_init_state with old_display_state := DisplayState.on }
        DisplayState.undef).1 ≠
      { keypad_init_state with old_display_state := DisplayState.on } := by
  decide

/-- C8 (amended): the display-state trigger deduplicates against the
last-seen state: an unchanged state is a complete no-op; an undefined
state performs no disable or enable but still updates the last-seen state;
a transition into dim/off/low-power forces disable; a transition from a
non-ON state into ON invokes the enable policy exactly once, and a
repeated ON event without an intervening transition is a complete
no-op. -/
theorem C8_display_dedup (env : DatapipeEnv) (conf : KeypadConf) (s : KeypadState)
    (d : DisplayState) :
    (s.old_display_state = d → display_state_trigger env conf s d = (s, [])) ∧
    (d = DisplayState.undef → s.old_display_state ≠ DisplayState.undef →
      display_state_trigger env conf s d =
        ({ s with old_display_state := DisplayState.undef }, [])) ∧
    ((d = DisplayState.off ∨ d = DisplayState.lpm_off ∨ d = DisplayState.lpm_on ∨
        d = DisplayState.dim) →
      s.old_display_state ≠ d →
      display_state_trigger env conf s d =
        ({ (disable_key_backlight env conf s).1 with old_display_state := d },
         (disable_key_backlight env conf s).2)) ∧
    (d = DisplayState.on → s.old_display_state ≠ DisplayState.on →
      display_state_trigger env conf s d =
        ({ (enable_key_backlight_policy env conf s).1 with
            old_display_state := DisplayState.on },
         (enable_key_backlight_policy env conf s).2) ∧
      display_state_trigger env conf (display_state_trigger env conf s d).1 DisplayState.on =
        ((display_state_trigger env conf s d).1, [])) := by
  refine ⟨?_, ?_, ?_, ?_⟩
  · intro h
    simp only [display_state_trigger]
    rw [if_pos h]
  · intro hd h2
    subst hd
    simp only [display_state_trigger]
    rw [if_neg h2]
    simp
  · intro hd h2
    rcases hd with rfl | rfl | rfl | rfl <;>
      (simp only [display_state_trigger]; rw [if_neg h2]; simp)
  · intro hd h2
    subst hd
    have heq : display_state_trigger env conf s DisplayState.on =
        ({ (enable_key_backlight_policy env conf s).1 with
            old_display_state := DisplayState.on },
         (enable_key_backlight_policy env conf s).2) := by
      simp only [display_state_trigger]
      rw [if_neg h2]
      simp [h2]
    refine ⟨heq, ?_⟩
    rw [heq]
    simp [display_state_trigger]

/-- C8 witness: OFF→ON in the initial state on RX-51 invokes the enable
policy once; the immediately repeated ON event is a complete no-op. -/
theorem C8_display_dedup_witness :
    display_state_trigger env_rx51 conf_default
        { keypad_init_state with old_display_state := DisplayState.off } DisplayState.on =
      ({ (enable_key_backlight_policy env_rx51 conf_default
            { keypad_init_state with old_display_state := DisplayState.off }).1 with
          old_display_state := DisplayState.on },
       (enable_key_backlight_policy env_rx51 conf_default
          { keypad_init_state with old_display_state := DisplayState.off }).2) ∧
    display_state_trigger env_rx51 conf_default
        (display_state_trigger env_rx51 conf_default
          { keypad_init_state with old_display_state := DisplayState.off }
          DisplayState.on).1 DisplayState.on =
      ((display_state_trigger env_rx51 conf_default
          { keypad_init_state with old_display_state := DisplayState.off }
          DisplayState.on).1, []) :=
  (C8_display_dedup env_rx51 conf_default
    { keypad_init_state with old_display_state := DisplayState.off }
    DisplayState.on).2.2.2 rfl (by decide)

/-- C9: the keyboard-slide trigger re-evaluates the enable policy exactly
when the delivered cover position is open and the keylock submode bit is
clear; in every other case it forces disable, after which no timer is
scheduled, level 0 has been pushed through the level channel, and no
timer-start action was emitted. -/
theorem C9_slide_trigger (env : DatapipeEnv) (conf : KeypadConf) (s : KeypadState)
    (data : CoverState) :
    ((data = CoverState.cover_open ∧ env.submode &&& MCE_TKLOCK_SUBMODE = 0) →
      keyboard_slide_trigger env conf s data = enable_key_backlight_policy env conf s) ∧
    (¬(data = CoverState.cover_open ∧ env.submode &&& MCE_TKLOCK_SUBMODE = 0) →
      keyboard_slide_trigger env conf s data = disable_key_backlight env conf s ∧
      (keyboard_slide_trigger env conf s data).1.key_backlight_timeout_cb_id = 0 ∧
      Action.pushLevel 0 ∈ (keyboard_slide_trigger env conf s data).2 ∧
      (keyboard_slide_trigger env conf s data).2.filter is_timer_start = []) := by
  constructor
  · intro h
    simp only [keyboard_slide_trigger]
    rw [if_pos h]
  · intro h
    have heq : keyboard_slide_trigger env conf s data = disable_key_backlight env conf s := by
      simp only [keyboard_slide_trigger]
      rw [if_neg h]
    exact ⟨heq, by rw [heq]; exact disable_cb env conf s,
           by rw [heq]; exact disable_push env conf s,
           by rw [heq]; exact disable_no_timer env conf s⟩

/-- C9 witness: a closed slide in the initial state forces disable, with
level 0 pushed and no timer scheduled. -/
theorem C9_slide_trigger_witness :
    keyboard_slide_trigger env_rx51 conf_default keypad_init_state CoverState.cover_closed =
      disable_key_backlight env_rx51 conf_default keypad_init_state ∧
    (keyboard_slide_trigger env_rx51 conf_default keypad_init_state
        CoverState.cover_closed).1.key_backlight_timeout_cb_id = 0 ∧
    Action.pushLevel 0 ∈
      (keyboard_slide_trigger env_rx51 conf_default keypad_init_state
        CoverState.cover_closed).2 ∧
    (keyboard_slide_trigger env_rx51 conf_default keypad_init_state
        CoverState.cover_closed).2.filter is_timer_start = [] :=
  (C9_slide_trigger env_rx51 conf_default keypad_init_state CoverState.cover_closed).2
    (by decide)

/-- C10: after every level request that passes deduplication, the enabled
flag — and hence the boolean returned by the D-Bus status query — equals
(level != 0); and when the request is routed to the Lysti backend whose
ambient-sensor guard fires (previous brightness 0, no timer), no hardware
write occurs, so the status query can report enabled even though the
hardware was never written. -/
theorem C10_enabled_flag (env : DatapipeEnv) (conf : KeypadConf) (s : KeypadState) (n : Int)
    (h1 : n ≠ s.cached_brightness) (h2 : n ≠ -1) :
    (set_backlight_brightness env conf s n).1.key_backlight_is_enabled = (n != 0) ∧
    send_key_backlight_state (set_backlight_brightness env conf s n).1 = (n != 0) ∧
    ((env.product = ProductId.rm690 ∨ env.product = ProductId.rm680 ∨
        env.product = ProductId.rx51) →
      s.old_brightness = 0 → s.key_backlight_timeout_cb_id = 0 →
      hardwareWrites (set_backlight_brightness env conf s n).2 = []) := by
  refine ⟨sbb_enabled env conf s n h1 h2, ?_, ?_⟩
  · simp only [send_key_backlight_state]
    exact sbb_enabled env conf s n h1 h2
  · intro hp hold htimer
    rcases hp with hp | hp | hp <;>
      simp [hardwareWrites, set_backlight_brightness, set_lysti_backlight_brightness,
        h1, h2, hp, hold, htimer]

/-- C10 witness: request 128 in the initial RX-51 state: the status query
reports enabled, yet zero hardware writes happened. -/
theorem C10_enabled_flag_witness :
    (set_backlight_brightness env_rx51 conf_default keypad_init_state
        128).1.key_backlight_is_enabled = ((128 : Int) != 0) ∧
    send_key_backlight_state
        (set_backlight_brightness env_rx51 conf_default keypad_init_state 128).1 =
      ((128 : Int) != 0) ∧
    hardwareWrites (set_backlight_brightness env_rx51 conf_default keypad_init_state 128).2
      = [] := by
  have h := C10_enabled_flag env_rx51 conf_default keypad_init_state 128
    (by decide) (by decide)
  exact ⟨h.1, h.2.1, h.2.2 (Or.inr (Or.inr rfl)) rfl rfl⟩

end Keypad
